import Mathlib

/-!
# Agent pool launcher (package `agentpool`)

A shallow embedding of `agentpool/agentpool.go` and `agentpool/structs.go`.

* Go strings are Lean `String`s; an `error` value is represented by its `Error()` text, with
  `Option String` for a possibly-nil error and `Except String α` for a `(value, error)` pair
  whose value is only used when the error is nil.
* `strings.Contains` is containment of one character sequence in another as a contiguous
  block; for well-formed UTF-8 text this agrees with Go's containment on bytes.
* `time.Duration` is a number of nanoseconds.
* The container engine (package `containers`) and the operating system's filesystem are
  external collaborators.  They are modelled as deterministic state machines whose answers
  are arbitrary: every call receives the collaborator's current state and returns an answer
  together with the next state.
* Every externally visible action (console line, engine call, sleep, filesystem call) is
  appended to a trace, so that statements such as "no start call is made" can be expressed.
* The health loop of `StartAgentPool` has no bound in the source.  It is embedded with a
  fuel parameter counting loop iterations; running out of fuel is reported as such and is
  never confused with a return of the function.
-/

namespace agentpool

/-! ## Data model -/

/-- Go's `time.Second`, in nanoseconds. -/
def time.Second : Nat := 1000000000

/-- Go's `time.Minute`, in nanoseconds. -/
def time.Minute : Nat := 60 * time.Second

/-- ConfigDetails holds the details of the agent config (`structs.go`). -/
structure ConfigDetails where
  Pat : String
  Org : String
  Pool : String
  ContainerName : String
deriving DecidableEq, Repr

/-- The fields of docker's `container.HealthConfig` that the program sets. -/
structure container.HealthConfig where
  Test : List String
  Interval : Nat
  Timeout : Nat
  StartPeriod : Nat
  Retries : Int
deriving DecidableEq, Repr

/-- The fields of docker's `container.Config` that the program sets. -/
structure container.Config where
  Image : String
  Env : List String
  Healthcheck : container.HealthConfig
deriving DecidableEq, Repr

/-- Docker's `nat.PortBinding`. -/
structure nat.PortBinding where
  HostIP : String
  HostPort : String
deriving DecidableEq, Repr

/-- Docker's `container.RestartPolicy`, field `Name`. -/
structure container.RestartPolicy where
  Name : String
deriving DecidableEq, Repr

/-- Docker's `container.LogConfig`; the Go field `Type` is spelled `Type_` here and the
string map `Config` is an association list. -/
structure container.LogConfig where
  Type_ : String
  Config : List (String × String)
deriving DecidableEq, Repr

/-- The fields of docker's `container.HostConfig` that the program sets.  A `nat.PortMap`
is an association list from port (such as `80/tcp`) to its bindings. -/
structure container.HostConfig where
  PortBindings : List (String × List nat.PortBinding)
  RestartPolicy : container.RestartPolicy
  LogConfig : container.LogConfig
deriving DecidableEq, Repr

/-- Docker's `network.NetworkingConfig`, left empty by the program. -/
structure network.NetworkingConfig where
deriving DecidableEq, Repr

/-- The image-spec `v1.Platform`, left empty by the program. -/
structure v1.Platform where
deriving DecidableEq, Repr

/-- The `containers.ContainerCreateConfig` record handed to the engine. -/
structure containers.ContainerCreateConfig where
  Name : String
  Config : container.Config
  HostConfig : container.HostConfig
  NetworkingConfig : network.NetworkingConfig
  Platform : v1.Platform
deriving DecidableEq, Repr

/-- The value returned by a successful `containers.CreateContainer`; the program only
reads its `ID`. -/
structure containers.Container where
  ID : String
deriving DecidableEq, Repr

/-! ## Library functions -/

/-- Go's `strings.Contains`: `substr` occurs in `s` as a contiguous block. -/
def strings.Contains (s substr : String) : Bool :=
  decide (substr.data <:+: s.data)

/-- Value of a string of decimal digits. -/
def nat.parseDigits (cs : List Char) : Nat :=
  cs.foldl (fun acc c => 10 * acc + (c.toNat - 48)) 0

/-- The function `nat.NewPort` of docker's go-connections library, for single ports: a
port written as a decimal number up to 65535 gives the port `<number>/<proto>` and a nil
error, anything else gives an error. -/
def nat.NewPort (proto port : String) : String × Option String :=
  if port.data ≠ [] ∧ port.data.all Char.isDigit ∧ nat.parseDigits port.data ≤ 65535 then
    (toString (nat.parseDigits port.data) ++ "/" ++ proto, none)
  else
    ("", some ("invalid port " ++ port))

/-! ## Configuration assembly -/

/-- The function `getAgentPoolConfig` of `agentpool.go`.  The second component is what the
function prints on standard output (one line when `nat.NewPort` reports an error). -/
def getAgentPoolConfig (details : ConfigDetails) :
    containers.ContainerCreateConfig × List String :=
  let newport := (nat.NewPort "tcp" "80").1
  let err := (nat.NewPort "tcp" "80").2
  let out := if err ≠ none then ["Unable to create docker port"] else []
  let env := [
    "AZP_URL=" ++ details.Org,
    "AZP_TOKEN=" ++ details.Pat,
    "AZP_POOL=" ++ details.Pool,
    "AZP_AGENT_NAME=" ++ details.ContainerName ]
  ({ Name := details.ContainerName,
     Config :=
       { Image := "azp_agent",
         Env := env,
         Healthcheck :=
           { Test := ["CMD", "dir"],
             Interval := 1 * time.Minute,
             Timeout := 30 * time.Second,
             StartPeriod := 15 * time.Second,
             Retries := 1000 } },
     HostConfig :=
       { PortBindings := [(newport, [{ HostIP := "0.0.0.0", HostPort := "80" }])],
         RestartPolicy := { Name := "no" },
         LogConfig := { Type_ := "json-file", Config := [] } },
     NetworkingConfig := {},
     Platform := {} }, out)

/-! ## The outside world -/

/-- Externally visible actions, in the order the program performs them. -/
inductive Event where
  | print (colour : String) (line : String)
  | createContainer (config : containers.ContainerCreateConfig)
  | startContainer (c : containers.Container)
  | exec (containerID : String) (cmd : List String)
  | sleep (d : Nat)
  | mkdir (path : String) (perm : Nat)
  | writeFile (name : String) (data : String) (perm : Nat)
deriving DecidableEq, Repr

/-- The container engine behind package `containers`, as a state machine over an arbitrary
state type: each operation answers from the current state and moves to a next state. -/
structure containers.Engine (σ : Type) where
  CreateContainer : containers.ContainerCreateConfig → σ → Except String containers.Container × σ
  StartContainer : containers.Container → σ → Option String × σ
  Exec : String → List String → σ → Except String String × σ

/-- What `StartAgentPool` runs in: the engine's state, the package variable `ContainerIDs`
and the trace of actions performed so far. -/
structure World (σ : Type) where
  engine : σ
  ContainerIDs : List String
  trace : List Event

variable {σ : Type}

/-- Append one action to the trace. -/
def World.emit (w : World σ) (e : Event) : World σ :=
  { w with trace := w.trace ++ [e] }

/-- Print plain lines on standard output (`fmt.Println`). -/
def World.println (w : World σ) (lines : List String) : World σ :=
  { w with trace := w.trace ++ lines.map (Event.print "") }

/-- The call `containers.CreateContainer(&config)`. -/
def containers.CreateContainer (E : containers.Engine σ)
    (config : containers.ContainerCreateConfig) (w : World σ) :
    Except String containers.Container × World σ :=
  ((E.CreateContainer config w.engine).1,
   { w with engine := (E.CreateContainer config w.engine).2,
            trace := w.trace ++ [Event.createContainer config] })

/-- The call `containers.StartContainer(container)`. -/
def containers.StartContainer (E : containers.Engine σ) (c : containers.Container)
    (w : World σ) : Option String × World σ :=
  ((E.StartContainer c w.engine).1,
   { w with engine := (E.StartContainer c w.engine).2,
            trace := w.trace ++ [Event.startContainer c] })

/-- The call `containers.Exec(containerID, cmd)`. -/
def containers.Exec (E : containers.Engine σ) (containerID : String) (cmd : List String)
    (w : World σ) : Except String String × World σ :=
  ((E.Exec containerID cmd w.engine).1,
   { w with engine := (E.Exec containerID cmd w.engine).2,
            trace := w.trace ++ [Event.exec containerID cmd] })

/-! ## The launcher -/

/-- The function `isAgentPoolContainerHealthy` of `agentpool.go`. -/
def isAgentPoolContainerHealthy (E : containers.Engine σ) (containerID : String)
    (w : World σ) : (Bool × Option String) × World σ :=
  match containers.Exec E containerID ["ps", "aux"] w with
  | (.error err, w) => ((false, some err), w)
  | (.ok output, w) => ((strings.Contains output "Agent.Listener", none), w)

/-- The `for` loop of `StartAgentPool`.  `fuel` bounds the number of iterations; the
result is `none` when the loop is still running after that many iterations and
`some isContainerHealthy` when it left through `break`. -/
def healthLoop (E : containers.Engine σ) (details : ConfigDetails) (containerID : String) :
    Nat → World σ → Option Bool × World σ
  | 0, w => (none, w)
  | fuel + 1, w =>
    match isAgentPoolContainerHealthy E containerID w with
    | ((isHealthy, err), w) =>
      let w := if err = none ∧ isHealthy = false then
          w.emit (Event.print "yellow"
            ("[AGENT CONTAINER " ++ details.ContainerName ++ ":] WAITING ON CONTAINER HEALTH CHECK"))
        else w
      if err ≠ none ∨ isHealthy = true then (some isHealthy, w)
      else healthLoop E details containerID fuel (w.emit (Event.sleep (30 * time.Second)))

/-- How a run of `StartAgentPool` ends: it returns its two results, or it is still inside
the health loop when the fuel is used up. -/
inductive Outcome where
  | returned (id : String) (err : Option String)
  | running
deriving DecidableEq, Repr

/-- The function `StartAgentPool` of `agentpool.go`. -/
def StartAgentPool (E : containers.Engine σ) (fuel : Nat) (details : ConfigDetails)
    (w : World σ) : Outcome × World σ :=
  let w := w.emit (Event.print "cyan"
    ("[AGENT CONTAINER " ++ details.ContainerName ++ ":] CREATING CONTAINER"))
  let config := (getAgentPoolConfig details).1
  let w := w.println (getAgentPoolConfig details).2
  match containers.CreateContainer E config w with
  | (.error createErr, w) =>
    (.returned "" (some ("[AGENT CONTAINER " ++ details.ContainerName ++
        ":] FAILED TO CREATE AGENT CONTAINER => " ++ createErr)), w)
  | (.ok container, w) =>
    let w := { w with ContainerIDs := w.ContainerIDs ++ [container.ID] }
    let w := w.emit (Event.print "green"
      ("[AGENT CONTAINER " ++ details.ContainerName ++ ":] CONTAINER CREATED SUCCESSFULLY"))
    let w := w.emit (Event.print "cyan"
      ("[AGENT CONTAINER " ++ details.ContainerName ++ ":] STARTING CONTAINER"))
    match containers.StartContainer E container w with
    | (some startErr, w) =>
      (.returned "" (some ("[AGENT CONTAINER " ++ details.ContainerName ++
          ":] FAILED TO START AGENT CONTAINER => " ++ startErr)), w)
    | (none, w) =>
      let w := w.emit (Event.print "cyan"
        ("[AGENT CONTAINER " ++ details.ContainerName ++ ":] CHECKING CONTAINER HEALTH"))
      match healthLoop E details container.ID fuel w with
      | (none, w) => (.running, w)
      | (some isContainerHealthy, w) =>
        let w := if isContainerHealthy = true then
            w.emit (Event.print "green"
              ("[AGENT CONTAINER " ++ details.ContainerName ++
                ":] AGENT CONTAINER STARTED SUCCESSFULLY"))
          else w
        if isContainerHealthy = false then
          (.returned "" (some ("[AGENT CONTAINER " ++ details.ContainerName ++
              ":] CONTAINER HEALTH STATUS FAILED")), w)
        else
          (.returned container.ID none, w)

/-! ## The build context -/

/-- A filesystem entry: a directory, or a regular file with its content. -/
inductive os.Node where
  | dir
  | file (data : String)
deriving DecidableEq, Repr

/-- The filesystem: the existing paths, each with what it is. -/
structure os.FileSystem where
  nodes : List (String × os.Node)
deriving DecidableEq, Repr

/-- Does the path exist. -/
def os.FileSystem.pathExists (fs : os.FileSystem) (path : String) : Bool :=
  fs.nodes.any (fun n => n.1 == path)

/-- Failures of the operating system other than the exclusive-creation rule (missing
parent, permissions, full disk, ...): arbitrary functions of the call and the filesystem. -/
structure os.Faults where
  Mkdir : String → os.FileSystem → Option String
  WriteFile : String → os.FileSystem → Option String

/-- What `CreateBuildCtx` runs in: the filesystem and the trace of actions so far. -/
structure FSWorld where
  fs : os.FileSystem
  trace : List Event
deriving DecidableEq, Repr

/-- Go's `os.Mkdir`: creation is exclusive, it fails when the path already exists. -/
def os.Mkdir (F : os.Faults) (path : String) (perm : Nat) (w : FSWorld) :
    Option String × FSWorld :=
  let t := w.trace ++ [Event.mkdir path perm]
  if w.fs.pathExists path then
    (some ("mkdir " ++ path ++ ": file exists"), { w with trace := t })
  else
    match F.Mkdir path w.fs with
    | some e => (some e, { w with trace := t })
    | none => (none, { fs := { nodes := w.fs.nodes ++ [(path, os.Node.dir)] }, trace := t })

/-- Go's `os.WriteFile`: create the file or replace its content. -/
def os.WriteFile (F : os.Faults) (name : String) (data : String) (perm : Nat) (w : FSWorld) :
    Option String × FSWorld :=
  let t := w.trace ++ [Event.writeFile name data perm]
  if (name, os.Node.dir) ∈ w.fs.nodes then
    (some ("open " ++ name ++ ": is a directory"), { w with trace := t })
  else
    match F.WriteFile name w.fs with
    | some e => (some e, { w with trace := t })
    | none =>
      (none, { fs := { nodes := w.fs.nodes.filter (fun n => n.1 != name) ++
                 [(name, os.Node.file data)] }, trace := t })

/-- Go's `os.ModePerm`, octal 777. -/
def os.ModePerm : Nat := 511

/-- An `embed.FS`: reading a bundled file by name gives its content or an error. -/
abbrev embed.FS := String → Except String String

/-- The function `CreateBuildCtx` of `agentpool.go`.  The two embedded file systems are the
package variables `dockerfile` and `shScript`. -/
def CreateBuildCtx (F : os.Faults) (dockerfile shScript : embed.FS) (path : String)
    (w : FSWorld) : Option String × FSWorld :=
  let w := { w with trace := w.trace ++ [Event.print "cyan"
    "[INFO:] CREATING DOCKERFILE AND SHELL SCRIPT REQUIRED TO BUILD THE AGENT POOL IMAGE"] }
  match os.Mkdir F path 511 w with
  | (some mkDirErr, w) => (some ("[ERR:] => MKDIR => " ++ mkDirErr), w)
  | (none, w) =>
    match dockerfile "Dockerfile" with
    | .error dockerfileErr => (some ("[ERR:] => DOCKERFILE.READFILE => " ++ dockerfileErr), w)
    | .ok dockerfileData =>
      match shScript "start.sh" with
      | .error psErr => (some ("[ERR:] => SHSCRIPT.READFILE => " ++ psErr), w)
      | .ok psScript =>
        match os.WriteFile F (path ++ "/Dockerfile") dockerfileData os.ModePerm w with
        | (some dockerFileWriteErr, w) =>
          (some ("[ERR:] => DOCKERFILE.WRITEFILE => " ++ dockerFileWriteErr), w)
        | (none, w) =>
          match os.WriteFile F (path ++ "/start.sh") psScript os.ModePerm w with
          | (some psWriteErr, w) => (some ("[ERR:] => SHSCRIPT.WRITEFILE => " ++ psWriteErr), w)
          | (none, w) => (none, w)

/-! ## Reading traces -/

/-- Number of exec probe calls in a trace. -/
def countExec (t : List Event) : Nat :=
  t.countP (fun e => match e with | Event.exec _ _ => true | _ => false)

/-- Number of start calls in a trace. -/
def countStart (t : List Event) : Nat :=
  t.countP (fun e => match e with | Event.startContainer _ => true | _ => false)

/-- Number of sleeps of exactly thirty seconds in a trace. -/
def countSleep30 (t : List Event) : Nat :=
  t.countP (fun e => decide (e = Event.sleep 30000000000))

/-- Number of sleeps of any length in a trace. -/
def countSleep (t : List Event) : Nat :=
  t.countP (fun e => match e with | Event.sleep _ => true | _ => false)

/-- Number of file writes in a trace. -/
def countWrite (t : List Event) : Nat :=
  t.countP (fun e => match e with | Event.writeFile _ _ _ => true | _ => false)

/-- The actions of one loop iteration whose probe answered without error and without
the marker: the probe, the waiting line, the sleep of thirty seconds. -/
def waitingRound (details : ConfigDetails) (containerID : String) : List Event :=
  [Event.exec containerID ["ps", "aux"],
   Event.print "yellow"
     ("[AGENT CONTAINER " ++ details.ContainerName ++ ":] WAITING ON CONTAINER HEALTH CHECK"),
   Event.sleep 30000000000]

/-- The actions of `StartAgentPool` from its first line up to the entry of the health loop,
when creation answered with container `c` and start succeeded. -/
def startupTrace (details : ConfigDetails) (c : containers.Container) : List Event :=
  [Event.print "cyan" ("[AGENT CONTAINER " ++ details.ContainerName ++ ":] CREATING CONTAINER"),
   Event.createContainer (getAgentPoolConfig details).1,
   Event.print "green"
     ("[AGENT CONTAINER " ++ details.ContainerName ++ ":] CONTAINER CREATED SUCCESSFULLY"),
   Event.print "cyan" ("[AGENT CONTAINER " ++ details.ContainerName ++ ":] STARTING CONTAINER"),
   Event.startContainer c,
   Event.print "cyan"
     ("[AGENT CONTAINER " ++ details.ContainerName ++ ":] CHECKING CONTAINER HEALTH")]

/-- The engine state in which the probe number `i` (counted from zero) is answered, when
the first probe is answered in state `s`. -/
def probeState (E : containers.Engine σ) (containerID : String) : Nat → σ → σ
  | 0, s => s
  | i + 1, s => probeState E containerID i (E.Exec containerID ["ps", "aux"] s).2

/-- The engine's answer to probe number `i` (counted from zero). -/
def probeAnswer (E : containers.Engine σ) (containerID : String) (i : Nat) (s : σ) :
    Except String String :=
  (E.Exec containerID ["ps", "aux"] (probeState E containerID i s)).1

/-- The world in which the health loop is entered, when creation answered with container
`c` and start succeeded. -/
def loopEntry (E : containers.Engine σ) (details : ConfigDetails) (c : containers.Container)
    (w : World σ) : World σ :=
  { engine := (E.StartContainer c (E.CreateContainer (getAgentPoolConfig details).1 w.engine).2).2,
    ContainerIDs := w.ContainerIDs ++ [c.ID],
    trace := w.trace ++ startupTrace details c }

/-- An engine for examples.  Creation always gives `createAnswer`, start always gives
`startAnswer`, and probe number `i` is answered by `script i`; the state counts the probes
made so far. -/
def scriptedEngine (createAnswer : Except String containers.Container)
    (startAnswer : Option String) (script : Nat → Except String String) :
    containers.Engine Nat :=
  { CreateContainer := fun _ s => (createAnswer, s),
    StartContainer := fun _ s => (startAnswer, s),
    Exec := fun _ _ s => (script s, s + 1) }

/-- A configuration for examples. -/
def demoDetails : ConfigDetails :=
  { Pat := "secret", Org := "https://dev.azure.com/org", Pool := "Default",
    ContainerName := "agent-1" }

/-- A world for examples: nothing created, nothing done yet. -/
def demoWorld : World Nat :=
  { engine := 0, ContainerIDs := [], trace := [] }

/-- The identifiers a call of `StartAgentPool` obtains from the engine: the one of the
created container when the engine's create answer, in the state the call starts in, is a
success, and none when it is a failure. -/
def createdByCall (E : containers.Engine σ) (details : ConfigDetails) (w : World σ) :
    List String :=
  match (E.CreateContainer (getAgentPoolConfig details).1 w.engine).1 with
  | .ok c => [c.ID]
  | .error _ => []

/-- A sequence of `StartAgentPool` calls, one after the other.  A call that is still in its
health loop when the fuel is used up never returns, so no later call is made. -/
def runCalls (E : containers.Engine σ) (fuel : Nat) : List ConfigDetails → World σ → World σ
  | [], w => w
  | details :: rest, w =>
    match StartAgentPool E fuel details w with
    | (.returned _ _, w1) => runCalls E fuel rest w1
    | (.running, w1) => w1

/-- The identifiers obtained from the engine by the successful creations of a sequence of
calls, in call order. -/
def createdIDs (E : containers.Engine σ) (fuel : Nat) : List ConfigDetails → World σ → List String
  | [], _ => []
  | details :: rest, w =>
    createdByCall E details w ++
      match StartAgentPool E fuel details w with
      | (.returned _ _, w1) => createdIDs E fuel rest w1
      | (.running, _) => []

/-- An operating system for examples, without failures of its own. -/
def demoFaults : os.Faults :=
  { Mkdir := fun _ _ => none, WriteFile := fun _ _ => none }

/-- Bundled files for examples. -/
def demoEmbed : embed.FS :=
  fun name => .ok ("# " ++ name)

/-- An empty filesystem for examples. -/
def demoFSWorld : FSWorld :=
  { fs := { nodes := [] }, trace := [] }

/-! ## The launcher: auxiliary facts -/

theorem getAgentPoolConfig_prints_nothing (details : ConfigDetails) :
    (getAgentPoolConfig details).2 = [] := by
  have hport : nat.NewPort "tcp" "80" = ("80/tcp", none) := by decide
  simp [getAgentPoolConfig, hport]

theorem thirty_seconds : 30 * time.Second = 30000000000 := by
  simp [time.Second]

theorem healthLoop_probe_error (E : containers.Engine σ) (details : ConfigDetails)
    (containerID : String) (fuel : Nat) (w : World σ) (e : String)
    (h : (E.Exec containerID ["ps", "aux"] w.engine).1 = .error e) :
    healthLoop E details containerID (fuel + 1) w =
      (some false,
       { engine := (E.Exec containerID ["ps", "aux"] w.engine).2,
         ContainerIDs := w.ContainerIDs,
         trace := w.trace ++ [Event.exec containerID ["ps", "aux"]] }) := by
  simp [healthLoop, isAgentPoolContainerHealthy, containers.Exec, h]

theorem healthLoop_probe_marker (E : containers.Engine σ) (details : ConfigDetails)
    (containerID : String) (fuel : Nat) (w : World σ) (out : String)
    (h : (E.Exec containerID ["ps", "aux"] w.engine).1 = .ok out)
    (hm : strings.Contains out "Agent.Listener" = true) :
    healthLoop E details containerID (fuel + 1) w =
      (some true,
       { engine := (E.Exec containerID ["ps", "aux"] w.engine).2,
         ContainerIDs := w.ContainerIDs,
         trace := w.trace ++ [Event.exec containerID ["ps", "aux"]] }) := by
  simp [healthLoop, isAgentPoolContainerHealthy, containers.Exec, h, hm]

theorem healthLoop_probe_waiting (E : containers.Engine σ) (details : ConfigDetails)
    (containerID : String) (fuel : Nat) (w : World σ) (out : String)
    (h : (E.Exec containerID ["ps", "aux"] w.engine).1 = .ok out)
    (hm : strings.Contains out "Agent.Listener" = false) :
    healthLoop E details containerID (fuel + 1) w =
      healthLoop E details containerID fuel
        { engine := (E.Exec containerID ["ps", "aux"] w.engine).2,
          ContainerIDs := w.ContainerIDs,
          trace := w.trace ++ waitingRound details containerID } := by
  simp [healthLoop, isAgentPoolContainerHealthy, containers.Exec, h, hm, World.emit,
    waitingRound, thirty_seconds]

theorem StartAgentPool_create_error (E : containers.Engine σ) (fuel : Nat)
    (details : ConfigDetails) (w : World σ) (e : String)
    (h : (E.CreateContainer (getAgentPoolConfig details).1 w.engine).1 = .error e) :
    StartAgentPool E fuel details w =
      (.returned "" (some ("[AGENT CONTAINER " ++ details.ContainerName ++
          ":] FAILED TO CREATE AGENT CONTAINER => " ++ e)),
       { engine := (E.CreateContainer (getAgentPoolConfig details).1 w.engine).2,
         ContainerIDs := w.ContainerIDs,
         trace := w.trace ++
           [Event.print "cyan"
              ("[AGENT CONTAINER " ++ details.ContainerName ++ ":] CREATING CONTAINER"),
            Event.createContainer (getAgentPoolConfig details).1] }) := by
  simp [StartAgentPool, containers.CreateContainer, World.emit, World.println,
    getAgentPoolConfig_prints_nothing, h]

theorem StartAgentPool_start_error (E : containers.Engine σ) (fuel : Nat)
    (details : ConfigDetails) (w : World σ) (c : containers.Container) (e : String)
    (h : (E.CreateContainer (getAgentPoolConfig details).1 w.engine).1 = .ok c)
    (hs : (E.StartContainer c
      (E.CreateContainer (getAgentPoolConfig details).1 w.engine).2).1 = some e) :
    StartAgentPool E fuel details w =
      (.returned "" (some ("[AGENT CONTAINER " ++ details.ContainerName ++
          ":] FAILED TO START AGENT CONTAINER => " ++ e)),
       { engine := (E.StartContainer c
           (E.CreateContainer (getAgentPoolConfig details).1 w.engine).2).2,
         ContainerIDs := w.ContainerIDs ++ [c.ID],
         trace := w.trace ++ (startupTrace details c).take 5 }) := by
  simp [StartAgentPool, containers.CreateContainer, containers.StartContainer, World.emit,
    World.println, getAgentPoolConfig_prints_nothing, h, hs, startupTrace]

theorem StartAgentPool_enters_loop (E : containers.Engine σ) (fuel : Nat)
    (details : ConfigDetails) (w : World σ) (c : containers.Container)
    (h : (E.CreateContainer (getAgentPoolConfig details).1 w.engine).1 = .ok c)
    (hs : (E.StartContainer c
      (E.CreateContainer (getAgentPoolConfig details).1 w.engine).2).1 = none) :
    StartAgentPool E fuel details w =
      match healthLoop E details c.ID fuel (loopEntry E details c w) with
      | (none, w) => (.running, w)
      | (some true, w) =>
        (.returned c.ID none,
         w.emit (Event.print "green" ("[AGENT CONTAINER " ++ details.ContainerName ++
           ":] AGENT CONTAINER STARTED SUCCESSFULLY")))
      | (some false, w) =>
        (.returned "" (some ("[AGENT CONTAINER " ++ details.ContainerName ++
           ":] CONTAINER HEALTH STATUS FAILED")), w) := by
  simp only [StartAgentPool, containers.CreateContainer, containers.StartContainer, World.emit,
    World.println, getAgentPoolConfig_prints_nothing, h, hs, List.map_nil, List.append_nil,
    List.append_assoc, List.singleton_append, List.cons_append, List.nil_append, loopEntry,
    startupTrace]
  generalize healthLoop E details c.ID fuel _ = r
  rcases r with ⟨r, w2⟩
  rcases r with _ | b
  · rfl
  · cases b <;> simp

theorem healthLoop_waiting_rounds (E : containers.Engine σ) (details : ConfigDetails)
    (containerID : String) (k m : Nat) (w : World σ)
    (h : ∀ i, i < k → ∃ out, probeAnswer E containerID i w.engine = .ok out ∧
      strings.Contains out "Agent.Listener" = false) :
    healthLoop E details containerID (k + m) w =
      healthLoop E details containerID m
        { engine := probeState E containerID k w.engine,
          ContainerIDs := w.ContainerIDs,
          trace := w.trace ++ (List.replicate k (waitingRound details containerID)).flatten } := by
  induction k generalizing w with
  | zero => simp [probeState]
  | succ k ih =>
    obtain ⟨out, h0, hm⟩ := h 0 (Nat.succ_pos k)
    have hfuel : k + 1 + m = (k + m) + 1 := by omega
    rw [hfuel, healthLoop_probe_waiting E details containerID (k + m) w out h0 hm]
    rw [ih { engine := (E.Exec containerID ["ps", "aux"] w.engine).2,
             ContainerIDs := w.ContainerIDs,
             trace := w.trace ++ waitingRound details containerID }
          (fun i hi => h (i + 1) (Nat.succ_lt_succ hi))]
    simp [probeState, List.replicate_succ, List.append_assoc]

theorem countExec_append (t u : List Event) : countExec (t ++ u) = countExec t + countExec u := by
  simp [countExec]

theorem countSleep_append (t u : List Event) :
    countSleep (t ++ u) = countSleep t + countSleep u := by
  simp [countSleep]

theorem countSleep30_append (t u : List Event) :
    countSleep30 (t ++ u) = countSleep30 t + countSleep30 u := by
  simp [countSleep30]

theorem countStart_append (t u : List Event) :
    countStart (t ++ u) = countStart t + countStart u := by
  simp [countStart]

theorem counts_startupTrace (details : ConfigDetails) (c : containers.Container) :
    countExec (startupTrace details c) = 0 ∧ countSleep (startupTrace details c) = 0 ∧
    countSleep30 (startupTrace details c) = 0 := by
  simp [countExec, countSleep, countSleep30, startupTrace, List.countP_cons]

theorem counts_waitingRounds (details : ConfigDetails) (containerID : String) (k : Nat) :
    countExec (List.replicate k (waitingRound details containerID)).flatten = k ∧
    countSleep (List.replicate k (waitingRound details containerID)).flatten = k ∧
    countSleep30 (List.replicate k (waitingRound details containerID)).flatten = k := by
  induction k with
  | zero => simp [countExec, countSleep, countSleep30]
  | succ k ih =>
    obtain ⟨h1, h2, h3⟩ := ih
    simp only [List.replicate_succ, List.flatten_cons, countExec_append, countSleep_append,
      countSleep30_append, h1, h2, h3]
    simp [countExec, countSleep, countSleep30, waitingRound, List.countP_cons]
    omega

theorem contains_of_split (s sub : String) (a b : List Char)
    (h : s.data = a ++ sub.data ++ b) : strings.Contains s sub = true := by
  simp only [strings.Contains, decide_eq_true_eq]
  exact ⟨a, b, h.symm⟩

theorem healthLoop_keeps_registry (E : containers.Engine σ) (details : ConfigDetails)
    (containerID : String) (fuel : Nat) (w : World σ) :
    (healthLoop E details containerID fuel w).2.ContainerIDs = w.ContainerIDs := by
  induction fuel generalizing w with
  | zero => rfl
  | succ n ih =>
    cases h : (E.Exec containerID ["ps", "aux"] w.engine).1 with
    | error e => rw [healthLoop_probe_error E details containerID n w e h]
    | ok out =>
      cases hm : strings.Contains out "Agent.Listener" with
      | true => rw [healthLoop_probe_marker E details containerID n w out h hm]
      | false => rw [healthLoop_probe_waiting E details containerID n w out h hm, ih]

theorem StartAgentPool_registry (E : containers.Engine σ) (fuel : Nat)
    (details : ConfigDetails) (w : World σ) :
    (StartAgentPool E fuel details w).2.ContainerIDs =
      w.ContainerIDs ++ createdByCall E details w := by
  cases hc : (E.CreateContainer (getAgentPoolConfig details).1 w.engine).1 with
  | error e =>
    rw [StartAgentPool_create_error E fuel details w e hc]
    simp [createdByCall, hc]
  | ok c =>
    cases hs : (E.StartContainer c
        (E.CreateContainer (getAgentPoolConfig details).1 w.engine).2).1 with
    | some e =>
      rw [StartAgentPool_start_error E fuel details w c e hc hs]
      simp [createdByCall, hc]
    | none =>
      rw [StartAgentPool_enters_loop E fuel details w c hc hs]
      have hk := healthLoop_keeps_registry E details c.ID fuel (loopEntry E details c w)
      rcases hl : healthLoop E details c.ID fuel (loopEntry E details c w) with ⟨r, w2⟩
      rw [hl] at hk
      rcases r with _ | b
      · simpa [createdByCall, hc, loopEntry] using hk
      · cases b <;> simpa [createdByCall, hc, loopEntry, World.emit] using hk

theorem runCalls_registry (E : containers.Engine σ) (fuel : Nat) (calls : List ConfigDetails)
    (w : World σ) :
    (runCalls E fuel calls w).ContainerIDs = w.ContainerIDs ++ createdIDs E fuel calls w := by
  induction calls generalizing w with
  | nil => simp [runCalls, createdIDs]
  | cons d rest ih =>
    have h1 := StartAgentPool_registry E fuel d w
    rcases hr : StartAgentPool E fuel d w with ⟨o, w1⟩
    rw [hr] at h1
    cases o with
    | returned id err =>
      simp only [runCalls, createdIDs, hr]
      rw [ih w1, h1, List.append_assoc]
    | running =>
      simp only [runCalls, createdIDs, hr]
      simpa using h1

theorem os_Mkdir_creates (F : os.Faults) (path : String) (perm : Nat) (w w1 : FSWorld)
    (h : os.Mkdir F path perm w = (none, w1)) : w1.fs.pathExists path = true := by
  unfold os.Mkdir at h
  split at h
  · simp at h
  · split at h
    · simp at h
    · simp only [Prod.mk.injEq, true_and] at h
      subst h
      simp [os.FileSystem.pathExists]

theorem os_WriteFile_keeps_paths (F : os.Faults) (name data : String) (perm : Nat) (w : FSWorld)
    (q : String) (h : w.fs.pathExists q = true) :
    (os.WriteFile F name data perm w).2.fs.pathExists q = true := by
  unfold os.WriteFile
  split
  · exact h
  · split
    · exact h
    · simp only [os.FileSystem.pathExists, List.any_append, List.any_filter, Bool.or_eq_true,
        List.any_eq_true] at h ⊢
      obtain ⟨n, hn, hq⟩ := h
      by_cases hname : n.1 = name
      · right
        refine ⟨_, List.mem_singleton_self _, ?_⟩
        simpa [hname] using hq
      · left
        exact ⟨n, hn, by simpa [hname] using hq⟩

theorem CreateBuildCtx_creates_path (F : os.Faults) (dockerfile shScript : embed.FS)
    (path : String) (w w1 : FSWorld)
    (h : CreateBuildCtx F dockerfile shScript path w = (none, w1)) :
    w1.fs.pathExists path = true := by
  unfold CreateBuildCtx at h
  simp only at h
  split at h
  · simp at h
  · rename_i wa hmk
    have ha := os_Mkdir_creates F path 511 _ wa hmk
    split at h
    · simp at h
    · rename_i dockerfileData _
      split at h
      · simp at h
      · rename_i psScript _
        have hb := os_WriteFile_keeps_paths F (path ++ "/Dockerfile") dockerfileData
          os.ModePerm wa path ha
        split at h
        · simp at h
        · rename_i wb hwb
          rw [hwb] at hb
          have hc := os_WriteFile_keeps_paths F (path ++ "/start.sh") psScript
            os.ModePerm wb path hb
          split at h
          · simp at h
          · rename_i wc hwc
            rw [hwc] at hc
            simp only [Prod.mk.injEq, true_and] at h
            subst h
            exact hc

theorem healthLoop_unhealthy_exit (E : containers.Engine σ) (details : ConfigDetails)
    (containerID : String) (fuel : Nat) (w : World σ)
    (h : (healthLoop E details containerID fuel w).1 = some false) :
    ∃ k e, k < fuel ∧
      (∀ i, i < k → ∃ out, probeAnswer E containerID i w.engine = .ok out ∧
        strings.Contains out "Agent.Listener" = false) ∧
      probeAnswer E containerID k w.engine = .error e := by
  induction fuel generalizing w with
  | zero => simp [healthLoop] at h
  | succ n ih =>
    cases hx : (E.Exec containerID ["ps", "aux"] w.engine).1 with
    | error e =>
      exact ⟨0, e, Nat.succ_pos n, fun i hi => absurd hi (Nat.not_lt_zero i), hx⟩
    | ok out =>
      cases hm : strings.Contains out "Agent.Listener" with
      | true =>
        rw [healthLoop_probe_marker E details containerID n w out hx hm] at h
        simp at h
      | false =>
        rw [healthLoop_probe_waiting E details containerID n w out hx hm] at h
        obtain ⟨k, e, hk, hwait, hlast⟩ := ih _ h
        refine ⟨k + 1, e, Nat.succ_lt_succ hk, ?_, hlast⟩
        intro i hi
        cases i with
        | zero => exact ⟨out, hx, hm⟩
        | succ j => exact hwait j (Nat.lt_of_succ_lt_succ hi)

/-! ## Configuration assembly: theorems -/

/-- C1: for every `ConfigDetails` value, empty strings included, the `Env` list built by
`getAgentPoolConfig` has exactly four entries, namely `AZP_TOKEN=` followed by `Pat`,
`AZP_URL=` followed by `Org`, `AZP_POOL=` followed by `Pool` and `AZP_AGENT_NAME=` followed
by `ContainerName`: it is the list of these four in the order URL, TOKEN, POOL, AGENT_NAME,
hence a rearrangement of the four listed, and each of them occurs in it exactly once. -/
theorem getAgentPoolConfig_env_four_entries (details : ConfigDetails) :
    (getAgentPoolConfig details).1.Config.Env.length = 4 ∧
    (getAgentPoolConfig details).1.Config.Env =
      ["AZP_URL=" ++ details.Org, "AZP_TOKEN=" ++ details.Pat,
       "AZP_POOL=" ++ details.Pool, "AZP_AGENT_NAME=" ++ details.ContainerName] ∧
    List.Perm (getAgentPoolConfig details).1.Config.Env
      ["AZP_TOKEN=" ++ details.Pat, "AZP_URL=" ++ details.Org,
       "AZP_POOL=" ++ details.Pool, "AZP_AGENT_NAME=" ++ details.ContainerName] ∧
    (getAgentPoolConfig details).1.Config.Env.count ("AZP_TOKEN=" ++ details.Pat) = 1 ∧
    (getAgentPoolConfig details).1.Config.Env.count ("AZP_URL=" ++ details.Org) = 1 ∧
    (getAgentPoolConfig details).1.Config.Env.count ("AZP_POOL=" ++ details.Pool) = 1 ∧
    (getAgentPoolConfig details).1.Config.Env.count
      ("AZP_AGENT_NAME=" ++ details.ContainerName) = 1 := by
  have hUT : "AZP_URL=" ++ details.Org ≠ "AZP_TOKEN=" ++ details.Pat := by
    intro h
    have h2 := congrArg String.data h
    simp [String.data_append] at h2
  have hUP : "AZP_URL=" ++ details.Org ≠ "AZP_POOL=" ++ details.Pool := by
    intro h
    have h2 := congrArg String.data h
    simp [String.data_append] at h2
  have hUA : "AZP_URL=" ++ details.Org ≠ "AZP_AGENT_NAME=" ++ details.ContainerName := by
    intro h
    have h2 := congrArg String.data h
    simp [String.data_append] at h2
  have hTP : "AZP_TOKEN=" ++ details.Pat ≠ "AZP_POOL=" ++ details.Pool := by
    intro h
    have h2 := congrArg String.data h
    simp [String.data_append] at h2
  have hTA : "AZP_TOKEN=" ++ details.Pat ≠ "AZP_AGENT_NAME=" ++ details.ContainerName := by
    intro h
    have h2 := congrArg String.data h
    simp [String.data_append] at h2
  have hPA : "AZP_POOL=" ++ details.Pool ≠ "AZP_AGENT_NAME=" ++ details.ContainerName := by
    intro h
    have h2 := congrArg String.data h
    simp [String.data_append] at h2
  have hEnv : (getAgentPoolConfig details).1.Config.Env =
      ["AZP_URL=" ++ details.Org, "AZP_TOKEN=" ++ details.Pat,
       "AZP_POOL=" ++ details.Pool, "AZP_AGENT_NAME=" ++ details.ContainerName] := rfl
  rw [hEnv]
  refine ⟨rfl, rfl, List.Perm.swap _ _ _, ?_, ?_, ?_, ?_⟩
  · simp [List.count_cons, hUT, hTP, hTA]
  · simp [List.count_cons, hUT.symm, hUP.symm, hUA.symm]
  · simp [List.count_cons, hUP, hTP, hPA]
  · simp [List.count_cons, hUA, hTA, hPA]

/-- C8: for every `ConfigDetails` value the configuration built by `getAgentPoolConfig` has
the fixed runtime settings: the single port binding maps container port `80/tcp` to host
port 80 on `0.0.0.0`; the health check has an interval of one minute, a timeout of thirty
seconds, a start period of fifteen seconds and a retry count of 1000; the restart policy is
`no`; the log driver is `json-file`.  Nothing but `Name` and `Env` depends on the input:
two inputs give configurations that agree once `Name` and `Env` are made equal, `Name` is
the container name, and nothing is printed. -/
theorem getAgentPoolConfig_fixed_settings (details other : ConfigDetails) :
    (getAgentPoolConfig details).1.HostConfig.PortBindings =
      [("80/tcp", [{ HostIP := "0.0.0.0", HostPort := "80" }])] ∧
    (getAgentPoolConfig details).1.Config.Healthcheck.Interval = 60 * 1000000000 ∧
    (getAgentPoolConfig details).1.Config.Healthcheck.Timeout = 30 * 1000000000 ∧
    (getAgentPoolConfig details).1.Config.Healthcheck.StartPeriod = 15 * 1000000000 ∧
    (getAgentPoolConfig details).1.Config.Healthcheck.Retries = 1000 ∧
    (getAgentPoolConfig details).1.Config.Healthcheck.Test = ["CMD", "dir"] ∧
    (getAgentPoolConfig details).1.HostConfig.RestartPolicy.Name = "no" ∧
    (getAgentPoolConfig details).1.HostConfig.LogConfig.Type_ = "json-file" ∧
    (getAgentPoolConfig details).1.HostConfig.LogConfig.Config = [] ∧
    (getAgentPoolConfig details).1.Config.Image = "azp_agent" ∧
    (getAgentPoolConfig details).1.Name = details.ContainerName ∧
    (getAgentPoolConfig details).2 = [] ∧
    { (getAgentPoolConfig details).1 with
        Name := "",
        Config := { (getAgentPoolConfig details).1.Config with Env := [] } } =
      { (getAgentPoolConfig other).1 with
        Name := "",
        Config := { (getAgentPoolConfig other).1.Config with Env := [] } } := by
  have hport : nat.NewPort "tcp" "80" = ("80/tcp", none) := by decide
  simp [getAgentPoolConfig, hport, time.Minute, time.Second]

/-! ## The launcher: theorems -/

/-- C2: with the engine as an oracle, if creation succeeds with container `c`, start
succeeds, and the first exec probe answers without error an output containing
`Agent.Listener`, then with any fuel of at least one iteration `StartAgentPool` returns
`(c.ID, nil)`, having made exactly one probe call and no sleep: its trace is the start-up
actions, the probe and the success line. -/
theorem StartAgentPool_healthy_first_probe (E : containers.Engine σ) (fuel : Nat)
    (details : ConfigDetails) (w : World σ) (c : containers.Container) (out : String)
    (hcreate : (E.CreateContainer (getAgentPoolConfig details).1 w.engine).1 = .ok c)
    (hstart : (E.StartContainer c
      (E.CreateContainer (getAgentPoolConfig details).1 w.engine).2).1 = none)
    (hprobe : probeAnswer E c.ID 0 (loopEntry E details c w).engine = .ok out)
    (hmarker : strings.Contains out "Agent.Listener" = true) :
    (StartAgentPool E (fuel + 1) details w).1 = .returned c.ID none ∧
    (StartAgentPool E (fuel + 1) details w).2.trace =
      w.trace ++ startupTrace details c ++ [Event.exec c.ID ["ps", "aux"]] ++
        [Event.print "green" ("[AGENT CONTAINER " ++ details.ContainerName ++
          ":] AGENT CONTAINER STARTED SUCCESSFULLY")] ∧
    countExec (StartAgentPool E (fuel + 1) details w).2.trace = countExec w.trace + 1 ∧
    countSleep (StartAgentPool E (fuel + 1) details w).2.trace = countSleep w.trace := by
  have hrun := StartAgentPool_enters_loop E (fuel + 1) details w c hcreate hstart
  rw [healthLoop_probe_marker E details c.ID fuel (loopEntry E details c w) out hprobe
    hmarker] at hrun
  obtain ⟨h1, h2, h3⟩ := counts_startupTrace details c
  rw [hrun]
  simp [World.emit, loopEntry, countExec_append, countSleep_append, h1, h2]
  simp [countExec, countSleep, List.countP_cons]

/-- C2, at a concrete input: a scripted engine whose first probe output lists the agent
process. -/
theorem StartAgentPool_healthy_first_probe_witness :
    (StartAgentPool (scriptedEngine (.ok { ID := "c0ffee" }) none
        (fun _ => .ok "root 7 Agent.Listener run")) 1 demoDetails demoWorld).1 =
      .returned "c0ffee" none :=
  (StartAgentPool_healthy_first_probe
    (scriptedEngine (.ok { ID := "c0ffee" }) none (fun _ => .ok "root 7 Agent.Listener run"))
    0 demoDetails demoWorld { ID := "c0ffee" } "root 7 Agent.Listener run" rfl rfl rfl
    (by decide)).1

/-- C3: for every configuration and every failure reason `reason`, when the engine's create
call fails `StartAgentPool` returns the empty identifier and an error whose text is the
container tag, the creation phrase and the reason, so that it contains
`details.ContainerName` and `reason`; the only actions are the first console line and the
create call, hence no start call and no exec probe call is made, and the registry is
untouched. -/
theorem StartAgentPool_creation_failure (E : containers.Engine σ) (fuel : Nat)
    (details : ConfigDetails) (w : World σ) (reason : String)
    (hcreate : (E.CreateContainer (getAgentPoolConfig details).1 w.engine).1 = .error reason) :
    (StartAgentPool E fuel details w).1 =
      .returned "" (some ("[AGENT CONTAINER " ++ details.ContainerName ++
        ":] FAILED TO CREATE AGENT CONTAINER => " ++ reason)) ∧
    strings.Contains ("[AGENT CONTAINER " ++ details.ContainerName ++
        ":] FAILED TO CREATE AGENT CONTAINER => " ++ reason) details.ContainerName = true ∧
    strings.Contains ("[AGENT CONTAINER " ++ details.ContainerName ++
        ":] FAILED TO CREATE AGENT CONTAINER => " ++ reason) reason = true ∧
    (StartAgentPool E fuel details w).2.trace =
      w.trace ++ [Event.print "cyan"
          ("[AGENT CONTAINER " ++ details.ContainerName ++ ":] CREATING CONTAINER"),
        Event.createContainer (getAgentPoolConfig details).1] ∧
    countStart (StartAgentPool E fuel details w).2.trace = countStart w.trace ∧
    countExec (StartAgentPool E fuel details w).2.trace = countExec w.trace ∧
    (StartAgentPool E fuel details w).2.ContainerIDs = w.ContainerIDs := by
  rw [StartAgentPool_create_error E fuel details w reason hcreate]
  refine ⟨rfl, ?_, ?_, rfl, ?_, ?_, rfl⟩
  · exact contains_of_split _ _ "[AGENT CONTAINER ".data
      (":] FAILED TO CREATE AGENT CONTAINER => ".data ++ reason.data)
      (by simp [String.data_append])
  · exact contains_of_split _ _ ("[AGENT CONTAINER ".data ++ details.ContainerName.data ++
      ":] FAILED TO CREATE AGENT CONTAINER => ".data) [] (by simp [String.data_append])
  · simp [countStart_append]
    simp [countStart, List.countP_cons]
  · simp [countExec_append]
    simp [countExec, List.countP_cons]

/-- C3, at a concrete input: the engine refuses to create the container. -/
theorem StartAgentPool_creation_failure_witness :
    (StartAgentPool (scriptedEngine (.error "no such image") none (fun _ => .ok "")) 5
        demoDetails demoWorld).1 =
      .returned "" (some ("[AGENT CONTAINER " ++ demoDetails.ContainerName ++
        ":] FAILED TO CREATE AGENT CONTAINER => " ++ "no such image")) :=
  (StartAgentPool_creation_failure
    (scriptedEngine (.error "no such image") none (fun _ => .ok "")) 5 demoDetails demoWorld
    "no such image" rfl).1

/-- C5: when creation and start succeed and the first exec probe call returns an error, the
health loop stops after that single probe, with no sleep and no second probe, and
`StartAgentPool` (with any fuel of at least one iteration) returns the empty identifier
together with a non-nil error, the health failure message. -/
theorem StartAgentPool_first_probe_error (E : containers.Engine σ) (fuel : Nat)
    (details : ConfigDetails) (w : World σ) (c : containers.Container) (e : String)
    (hcreate : (E.CreateContainer (getAgentPoolConfig details).1 w.engine).1 = .ok c)
    (hstart : (E.StartContainer c
      (E.CreateContainer (getAgentPoolConfig details).1 w.engine).2).1 = none)
    (hprobe : probeAnswer E c.ID 0 (loopEntry E details c w).engine = .error e) :
    healthLoop E details c.ID (fuel + 1) (loopEntry E details c w) =
      (some false,
       { engine := (E.Exec c.ID ["ps", "aux"] (loopEntry E details c w).engine).2,
         ContainerIDs := w.ContainerIDs ++ [c.ID],
         trace := w.trace ++ startupTrace details c ++ [Event.exec c.ID ["ps", "aux"]] }) ∧
    (StartAgentPool E (fuel + 1) details w).1 =
      .returned "" (some ("[AGENT CONTAINER " ++ details.ContainerName ++
        ":] CONTAINER HEALTH STATUS FAILED")) ∧
    (StartAgentPool E (fuel + 1) details w).2.trace =
      w.trace ++ startupTrace details c ++ [Event.exec c.ID ["ps", "aux"]] ∧
    countExec (StartAgentPool E (fuel + 1) details w).2.trace = countExec w.trace + 1 ∧
    countSleep (StartAgentPool E (fuel + 1) details w).2.trace = countSleep w.trace := by
  have hloop := healthLoop_probe_error E details c.ID fuel (loopEntry E details c w) e hprobe
  have hrun := StartAgentPool_enters_loop E (fuel + 1) details w c hcreate hstart
  rw [hloop] at hrun
  obtain ⟨h1, h2, h3⟩ := counts_startupTrace details c
  rw [hrun, hloop]
  simp [loopEntry, countExec_append, countSleep_append, h1, h2]
  simp [countExec, countSleep, List.countP_cons]

/-- C5, at a concrete input: the first probe fails with a transport error. -/
theorem StartAgentPool_first_probe_error_witness :
    (StartAgentPool (scriptedEngine (.ok { ID := "c0ffee" }) none
        (fun _ => .error "connection refused")) 1 demoDetails demoWorld).1 =
      .returned "" (some ("[AGENT CONTAINER " ++ demoDetails.ContainerName ++
        ":] CONTAINER HEALTH STATUS FAILED")) :=
  (StartAgentPool_first_probe_error
    (scriptedEngine (.ok { ID := "c0ffee" }) none (fun _ => .error "connection refused"))
    0 demoDetails demoWorld { ID := "c0ffee" } "connection refused" rfl rfl rfl).2.1

/-- C9: for every `k`, when creation and start succeed, the first `k` exec probes each
answer without error an output without `Agent.Listener`, and probe `k + 1` either errors or
answers an output containing the marker, then with any fuel above `k` the health loop makes
exactly `k + 1` probe calls and exactly `k` sleeps, each of thirty seconds and each right
after a marker-less probe, and `StartAgentPool` returns the created identifier when probe
`k + 1` contained the marker and the health failure error when it errored. -/
theorem StartAgentPool_after_k_waiting_probes (E : containers.Engine σ) (fuel k : Nat)
    (details : ConfigDetails) (w : World σ) (c : containers.Container)
    (hcreate : (E.CreateContainer (getAgentPoolConfig details).1 w.engine).1 = .ok c)
    (hstart : (E.StartContainer c
      (E.CreateContainer (getAgentPoolConfig details).1 w.engine).2).1 = none)
    (hwait : ∀ i, i < k → ∃ out,
      probeAnswer E c.ID i (loopEntry E details c w).engine = .ok out ∧
      strings.Contains out "Agent.Listener" = false)
    (hlast : ∀ out, probeAnswer E c.ID k (loopEntry E details c w).engine = .ok out →
      strings.Contains out "Agent.Listener" = true)
    (hfuel : k < fuel) :
    (StartAgentPool E fuel details w).1 =
      (match probeAnswer E c.ID k (loopEntry E details c w).engine with
       | .ok _ => .returned c.ID none
       | .error _ => .returned "" (some ("[AGENT CONTAINER " ++ details.ContainerName ++
           ":] CONTAINER HEALTH STATUS FAILED"))) ∧
    (StartAgentPool E fuel details w).2.trace =
      w.trace ++ startupTrace details c ++
        (List.replicate k (waitingRound details c.ID)).flatten ++
        [Event.exec c.ID ["ps", "aux"]] ++
        (match probeAnswer E c.ID k (loopEntry E details c w).engine with
         | .ok _ => [Event.print "green" ("[AGENT CONTAINER " ++ details.ContainerName ++
             ":] AGENT CONTAINER STARTED SUCCESSFULLY")]
         | .error _ => []) ∧
    countExec (StartAgentPool E fuel details w).2.trace = countExec w.trace + (k + 1) ∧
    countSleep (StartAgentPool E fuel details w).2.trace = countSleep w.trace + k ∧
    countSleep30 (StartAgentPool E fuel details w).2.trace = countSleep30 w.trace + k := by
  obtain ⟨m, rfl⟩ : ∃ m, fuel = k + (m + 1) := ⟨fuel - k - 1, by omega⟩
  have hrun := StartAgentPool_enters_loop E (k + (m + 1)) details w c hcreate hstart
  rw [healthLoop_waiting_rounds E details c.ID k (m + 1) (loopEntry E details c w) hwait]
    at hrun
  obtain ⟨s1, s2, s3⟩ := counts_startupTrace details c
  obtain ⟨r1, r2, r3⟩ := counts_waitingRounds details c.ID k
  have hans : probeAnswer E c.ID k (loopEntry E details c w).engine =
      (E.Exec c.ID ["ps", "aux"] (probeState E c.ID k (loopEntry E details c w).engine)).1 := rfl
  cases hk : probeAnswer E c.ID k (loopEntry E details c w).engine with
  | error e =>
    rw [healthLoop_probe_error E details c.ID m _ e (hans ▸ hk)] at hrun
    rw [hrun]
    simp [loopEntry, countExec_append, countSleep_append, countSleep30_append, s1, s2, s3,
      r1, r2, r3]
    simp [countExec, countSleep, countSleep30, List.countP_cons]
  | ok out =>
    rw [healthLoop_probe_marker E details c.ID m _ out (hans ▸ hk) (hlast out hk)] at hrun
    rw [hrun]
    simp [World.emit, loopEntry, countExec_append, countSleep_append, countSleep30_append,
      s1, s2, s3, r1, r2, r3]
    simp [countExec, countSleep, countSleep30, List.countP_cons]

/-- C9, at a concrete input: two probes see no agent process, the third one does. -/
theorem StartAgentPool_after_k_waiting_probes_witness :
    (StartAgentPool (scriptedEngine (.ok { ID := "c0ffee" }) none
        (fun i => if i < 2 then .ok "root 1 bash" else .ok "root 7 Agent.Listener run"))
      3 demoDetails demoWorld).1 = .returned "c0ffee" none ∧
    countSleep30 (StartAgentPool (scriptedEngine (.ok { ID := "c0ffee" }) none
        (fun i => if i < 2 then .ok "root 1 bash" else .ok "root 7 Agent.Listener run"))
      3 demoDetails demoWorld).2.trace = countSleep30 demoWorld.trace + 2 :=
  have h := StartAgentPool_after_k_waiting_probes
    (scriptedEngine (.ok { ID := "c0ffee" }) none
      (fun i => if i < 2 then .ok "root 1 bash" else .ok "root 7 Agent.Listener run"))
    3 2 demoDetails demoWorld { ID := "c0ffee" } rfl rfl
    (fun i hi => ⟨"root 1 bash", by
      interval_cases i
      · rfl
      · rfl, by decide⟩)
    (fun out hout => by
      have h2 : out = "root 7 Agent.Listener run" := by
        have h3 : (Except.ok "root 7 Agent.Listener run" : Except String String) =
            Except.ok out := hout
        injection h3 with h4
        exact h4.symm
      subst h2
      decide)
    (by decide)
  ⟨h.1, h.2.2.2.2⟩

/-- C10: when creation and start succeed and every exec probe answers without error an
output without `Agent.Listener`, the health loop of `StartAgentPool` never terminates: for
every number `n` of iterations, after `n` probes the loop has left neither with success nor
with failure, `StartAgentPool` has not returned, and every one of the `n` probes was
followed by the waiting line and a sleep of thirty seconds before the next probe, so that
one more iteration only adds one more probe and one more sleep. -/
theorem StartAgentPool_never_returns (E : containers.Engine σ) (n : Nat)
    (details : ConfigDetails) (w : World σ) (c : containers.Container)
    (hcreate : (E.CreateContainer (getAgentPoolConfig details).1 w.engine).1 = .ok c)
    (hstart : (E.StartContainer c
      (E.CreateContainer (getAgentPoolConfig details).1 w.engine).2).1 = none)
    (hwait : ∀ i, ∃ out,
      probeAnswer E c.ID i (loopEntry E details c w).engine = .ok out ∧
      strings.Contains out "Agent.Listener" = false) :
    (healthLoop E details c.ID n (loopEntry E details c w)).1 = none ∧
    (StartAgentPool E n details w).1 = .running ∧
    (StartAgentPool E n details w).2.trace =
      w.trace ++ startupTrace details c ++
        (List.replicate n (waitingRound details c.ID)).flatten ∧
    (StartAgentPool E (n + 1) details w).2.trace =
      (StartAgentPool E n details w).2.trace ++ waitingRound details c.ID ∧
    countExec (StartAgentPool E n details w).2.trace = countExec w.trace + n ∧
    countSleep30 (StartAgentPool E n details w).2.trace = countSleep30 w.trace + n := by
  have hloop : ∀ j, healthLoop E details c.ID j (loopEntry E details c w) =
      (none, { engine := probeState E c.ID j (loopEntry E details c w).engine,
               ContainerIDs := (loopEntry E details c w).ContainerIDs,
               trace := (loopEntry E details c w).trace ++
                 (List.replicate j (waitingRound details c.ID)).flatten }) := by
    intro j
    have h := healthLoop_waiting_rounds E details c.ID j 0 (loopEntry E details c w)
      (fun i _ => hwait i)
    rw [Nat.add_zero] at h
    rw [h]
    rfl
  have hrun : ∀ j, StartAgentPool E j details w =
      (.running,
       { engine := probeState E c.ID j (loopEntry E details c w).engine,
         ContainerIDs := (loopEntry E details c w).ContainerIDs,
         trace := (loopEntry E details c w).trace ++
           (List.replicate j (waitingRound details c.ID)).flatten }) := by
    intro j
    rw [StartAgentPool_enters_loop E j details w c hcreate hstart, hloop j]
  obtain ⟨s1, s2, s3⟩ := counts_startupTrace details c
  obtain ⟨r1, r2, r3⟩ := counts_waitingRounds details c.ID n
  rw [hloop n, hrun n, hrun (n + 1)]
  refine ⟨rfl, rfl, rfl, ?_, ?_, ?_⟩
  · have hrep : List.replicate (n + 1) (waitingRound details c.ID) =
        List.replicate n (waitingRound details c.ID) ++ [waitingRound details c.ID] :=
      List.replicate_succ' n _
    simp [hrep, List.append_assoc]
  · simp [loopEntry, countExec_append, s1, r1]
  · simp [loopEntry, countSleep30_append, s3, r3]

/-- C10, at a concrete input: the agent process never shows up in the probe output. -/
theorem StartAgentPool_never_returns_witness :
    (StartAgentPool (scriptedEngine (.ok { ID := "c0ffee" }) none (fun _ => .ok "root 1 bash"))
      1000 demoDetails demoWorld).1 = .running :=
  (StartAgentPool_never_returns
    (scriptedEngine (.ok { ID := "c0ffee" }) none (fun _ => .ok "root 1 bash"))
    1000 demoDetails demoWorld { ID := "c0ffee" } rfl rfl
    (fun _ => ⟨"root 1 bash", rfl, by decide⟩)).2.1

/-- C4: the registry invariant.  After any sequence of `StartAgentPool` calls started with
an empty `ContainerIDs` registry, the registry is exactly the list of the identifiers the
engine returned to the calls whose creation step succeeded, in call order.  Each call
appends the identifier of its created container once, whatever its start and health check
do afterwards, and appends nothing when its creation failed. -/
theorem ContainerIDs_lists_created_containers (E : containers.Engine σ) (fuel : Nat)
    (calls : List ConfigDetails) (details : ConfigDetails) (w : World σ) :
    (runCalls E fuel calls { w with ContainerIDs := [] }).ContainerIDs =
      createdIDs E fuel calls { w with ContainerIDs := [] } ∧
    (StartAgentPool E fuel details w).2.ContainerIDs =
      w.ContainerIDs ++
        (match (E.CreateContainer (getAgentPoolConfig details).1 w.engine).1 with
         | .ok c => [c.ID]
         | .error _ => []) := by
  refine ⟨?_, StartAgentPool_registry E fuel details w⟩
  rw [runCalls_registry]
  rfl

/-- C6: every failure of `StartAgentPool` returns the empty string as identifier together
with an error naming the container and the stage.  When the create call fails the result is
`("", error)` with the creation message; when creation succeeds and the start call fails it
is `("", error)` with the start message; when both succeed and, after any number `k` of
marker-less probes, a probe fails, it is `("", error)` with the health message (for any
fuel above `k`).  Conversely every returned non-nil error comes with the empty identifier
and is one of these three messages, for the stage that failed.  Each message contains
`details.ContainerName` and the phrase of its stage, and the three messages of one
configuration are pairwise different, whatever the underlying reasons are. -/
theorem StartAgentPool_failure_names_stage (E : containers.Engine σ) (fuel : Nat)
    (details : ConfigDetails) (w : World σ) :
    (∀ reason,
      (E.CreateContainer (getAgentPoolConfig details).1 w.engine).1 = .error reason →
      (StartAgentPool E fuel details w).1 =
        .returned "" (some ("[AGENT CONTAINER " ++ details.ContainerName ++
          ":] FAILED TO CREATE AGENT CONTAINER => " ++ reason))) ∧
    (∀ c reason,
      (E.CreateContainer (getAgentPoolConfig details).1 w.engine).1 = .ok c →
      (E.StartContainer c
        (E.CreateContainer (getAgentPoolConfig details).1 w.engine).2).1 = some reason →
      (StartAgentPool E fuel details w).1 =
        .returned "" (some ("[AGENT CONTAINER " ++ details.ContainerName ++
          ":] FAILED TO START AGENT CONTAINER => " ++ reason))) ∧
    (∀ c k e,
      (E.CreateContainer (getAgentPoolConfig details).1 w.engine).1 = .ok c →
      (E.StartContainer c
        (E.CreateContainer (getAgentPoolConfig details).1 w.engine).2).1 = none →
      (∀ i, i < k → ∃ out,
        probeAnswer E c.ID i (loopEntry E details c w).engine = .ok out ∧
        strings.Contains out "Agent.Listener" = false) →
      probeAnswer E c.ID k (loopEntry E details c w).engine = .error e →
      k < fuel →
      (StartAgentPool E fuel details w).1 =
        .returned "" (some ("[AGENT CONTAINER " ++ details.ContainerName ++
          ":] CONTAINER HEALTH STATUS FAILED"))) ∧
    (∀ id err, (StartAgentPool E fuel details w).1 = .returned id (some err) →
      id = "" ∧
      ((∃ reason,
          (E.CreateContainer (getAgentPoolConfig details).1 w.engine).1 = .error reason ∧
          err = "[AGENT CONTAINER " ++ details.ContainerName ++
            ":] FAILED TO CREATE AGENT CONTAINER => " ++ reason) ∨
       (∃ c reason,
          (E.CreateContainer (getAgentPoolConfig details).1 w.engine).1 = .ok c ∧
          (E.StartContainer c
            (E.CreateContainer (getAgentPoolConfig details).1 w.engine).2).1 = some reason ∧
          err = "[AGENT CONTAINER " ++ details.ContainerName ++
            ":] FAILED TO START AGENT CONTAINER => " ++ reason) ∨
       (∃ c k e,
          (E.CreateContainer (getAgentPoolConfig details).1 w.engine).1 = .ok c ∧
          (E.StartContainer c
            (E.CreateContainer (getAgentPoolConfig details).1 w.engine).2).1 = none ∧
          k < fuel ∧
          (∀ i, i < k → ∃ out,
            probeAnswer E c.ID i (loopEntry E details c w).engine = .ok out ∧
            strings.Contains out "Agent.Listener" = false) ∧
          probeAnswer E c.ID k (loopEntry E details c w).engine = .error e ∧
          err = "[AGENT CONTAINER " ++ details.ContainerName ++
            ":] CONTAINER HEALTH STATUS FAILED"))) ∧
    (∀ reason : String,
      strings.Contains ("[AGENT CONTAINER " ++ details.ContainerName ++
        ":] FAILED TO CREATE AGENT CONTAINER => " ++ reason) details.ContainerName = true ∧
      strings.Contains ("[AGENT CONTAINER " ++ details.ContainerName ++
        ":] FAILED TO CREATE AGENT CONTAINER => " ++ reason)
        "FAILED TO CREATE AGENT CONTAINER" = true ∧
      strings.Contains ("[AGENT CONTAINER " ++ details.ContainerName ++
        ":] FAILED TO START AGENT CONTAINER => " ++ reason) details.ContainerName = true ∧
      strings.Contains ("[AGENT CONTAINER " ++ details.ContainerName ++
        ":] FAILED TO START AGENT CONTAINER => " ++ reason)
        "FAILED TO START AGENT CONTAINER" = true ∧
      strings.Contains ("[AGENT CONTAINER " ++ details.ContainerName ++
        ":] CONTAINER HEALTH STATUS FAILED") details.ContainerName = true ∧
      strings.Contains ("[AGENT CONTAINER " ++ details.ContainerName ++
        ":] CONTAINER HEALTH STATUS FAILED") "CONTAINER HEALTH STATUS FAILED" = true) ∧
    (∀ r1 r2 : String,
      "[AGENT CONTAINER " ++ details.ContainerName ++
          ":] FAILED TO CREATE AGENT CONTAINER => " ++ r1 ≠
        "[AGENT CONTAINER " ++ details.ContainerName ++
          ":] FAILED TO START AGENT CONTAINER => " ++ r2 ∧
      "[AGENT CONTAINER " ++ details.ContainerName ++
          ":] FAILED TO CREATE AGENT CONTAINER => " ++ r1 ≠
        "[AGENT CONTAINER " ++ details.ContainerName ++ ":] CONTAINER HEALTH STATUS FAILED" ∧
      "[AGENT CONTAINER " ++ details.ContainerName ++
          ":] FAILED TO START AGENT CONTAINER => " ++ r2 ≠
        "[AGENT CONTAINER " ++ details.ContainerName ++
          ":] CONTAINER HEALTH STATUS FAILED") := by
  refine ⟨?_, ?_, ?_, ?_, ?_, ?_⟩
  · intro reason hc
    rw [StartAgentPool_create_error E fuel details w reason hc]
  · intro c reason hc hs
    rw [StartAgentPool_start_error E fuel details w c reason hc hs]
  · intro c k e hc hs hwait hlast hfuel
    obtain ⟨m, rfl⟩ : ∃ m, fuel = k + (m + 1) := ⟨fuel - k - 1, by omega⟩
    rw [StartAgentPool_enters_loop E (k + (m + 1)) details w c hc hs,
      healthLoop_waiting_rounds E details c.ID k (m + 1) (loopEntry E details c w) hwait,
      healthLoop_probe_error E details c.ID m
        { engine := probeState E c.ID k (loopEntry E details c w).engine,
          ContainerIDs := (loopEntry E details c w).ContainerIDs,
          trace := (loopEntry E details c w).trace ++
            (List.replicate k (waitingRound details c.ID)).flatten } e hlast]
  · intro id err hfail
    cases hc : (E.CreateContainer (getAgentPoolConfig details).1 w.engine).1 with
    | error e =>
      rw [StartAgentPool_create_error E fuel details w e hc] at hfail
      simp only [Outcome.returned.injEq, Option.some.injEq] at hfail
      obtain ⟨h1, h2⟩ := hfail
      exact ⟨h1.symm, Or.inl ⟨e, rfl, h2.symm⟩⟩
    | ok c =>
      cases hs : (E.StartContainer c
          (E.CreateContainer (getAgentPoolConfig details).1 w.engine).2).1 with
      | some e =>
        rw [StartAgentPool_start_error E fuel details w c e hc hs] at hfail
        simp only [Outcome.returned.injEq, Option.some.injEq] at hfail
        obtain ⟨h1, h2⟩ := hfail
        exact ⟨h1.symm, Or.inr (Or.inl ⟨c, e, rfl, hs, h2.symm⟩)⟩
      | none =>
        rw [StartAgentPool_enters_loop E fuel details w c hc hs] at hfail
        rcases hl : healthLoop E details c.ID fuel (loopEntry E details c w) with ⟨r, w2⟩
        rw [hl] at hfail
        rcases r with _ | b
        · simp at hfail
        · cases b with
          | true => simp at hfail
          | false =>
            simp only [Outcome.returned.injEq, Option.some.injEq] at hfail
            obtain ⟨h1, h2⟩ := hfail
            obtain ⟨k, e, hk, hwait, hlast⟩ :=
              healthLoop_unhealthy_exit E details c.ID fuel (loopEntry E details c w)
                (by rw [hl])
            exact ⟨h1.symm, Or.inr (Or.inr ⟨c, k, e, rfl, hs, hk, hwait, hlast, h2.symm⟩)⟩
  · intro reason
    refine ⟨?_, ?_, ?_, ?_, ?_, ?_⟩
    · exact contains_of_split _ _ "[AGENT CONTAINER ".data
        (":] FAILED TO CREATE AGENT CONTAINER => ".data ++ reason.data)
        (by simp [String.data_append])
    · exact contains_of_split _ _ ("[AGENT CONTAINER ".data ++ details.ContainerName.data ++
        ":] ".data) (" => ".data ++ reason.data) (by simp [String.data_append])
    · exact contains_of_split _ _ "[AGENT CONTAINER ".data
        (":] FAILED TO START AGENT CONTAINER => ".data ++ reason.data)
        (by simp [String.data_append])
    · exact contains_of_split _ _ ("[AGENT CONTAINER ".data ++ details.ContainerName.data ++
        ":] ".data) (" => ".data ++ reason.data) (by simp [String.data_append])
    · exact contains_of_split _ _ "[AGENT CONTAINER ".data
        ":] CONTAINER HEALTH STATUS FAILED".data (by simp [String.data_append])
    · exact contains_of_split _ _ ("[AGENT CONTAINER ".data ++
        details.ContainerName.data ++ ":] ".data) [] (by simp [String.data_append])
  · intro r1 r2
    refine ⟨?_, ?_, ?_⟩ <;>
    · intro h
      have h2 := congrArg String.data h
      simp [String.data_append] at h2

/-- C6, at concrete inputs, one per stage: an engine that refuses to create the container,
an engine that creates it and refuses to start it, and an engine whose second probe fails
after a first probe without the agent process.  Each run returns the empty identifier and
the message of its stage. -/
theorem StartAgentPool_failure_names_stage_witness :
    (StartAgentPool (scriptedEngine (.error "no such image") none (fun _ => .ok ""))
        3 demoDetails demoWorld).1 =
      .returned "" (some ("[AGENT CONTAINER " ++ demoDetails.ContainerName ++
        ":] FAILED TO CREATE AGENT CONTAINER => " ++ "no such image")) ∧
    (StartAgentPool (scriptedEngine (.ok { ID := "c0ffee" })
        (some "port is already allocated") (fun _ => .ok "")) 3 demoDetails demoWorld).1 =
      .returned "" (some ("[AGENT CONTAINER " ++ demoDetails.ContainerName ++
        ":] FAILED TO START AGENT CONTAINER => " ++ "port is already allocated")) ∧
    (StartAgentPool (scriptedEngine (.ok { ID := "c0ffee" }) none
        (fun i => if i < 1 then .ok "root 1 bash" else .error "connection refused"))
        3 demoDetails demoWorld).1 =
      .returned "" (some ("[AGENT CONTAINER " ++ demoDetails.ContainerName ++
        ":] CONTAINER HEALTH STATUS FAILED")) :=
  ⟨(StartAgentPool_failure_names_stage
      (scriptedEngine (.error "no such image") none (fun _ => .ok ""))
      3 demoDetails demoWorld).1 "no such image" rfl,
   (StartAgentPool_failure_names_stage
      (scriptedEngine (.ok { ID := "c0ffee" }) (some "port is already allocated")
        (fun _ => .ok ""))
      3 demoDetails demoWorld).2.1 { ID := "c0ffee" } "port is already allocated" rfl rfl,
   (StartAgentPool_failure_names_stage
      (scriptedEngine (.ok { ID := "c0ffee" }) none
        (fun i => if i < 1 then .ok "root 1 bash" else .error "connection refused"))
      3 demoDetails demoWorld).2.2.1 { ID := "c0ffee" } 1 "connection refused" rfl rfl
      (fun i hi => ⟨"root 1 bash", by
        interval_cases i
        rfl, by decide⟩)
      rfl (by decide)⟩

/-! ## The build context: theorems -/

/-- C7: over the filesystem model in which creating a directory fails when the path
already exists, for every path, if a first `CreateBuildCtx path` succeeds, a second
`CreateBuildCtx path` returns the directory-creation error, whose text begins with
`[ERR:] => MKDIR => `, and writes no file: it only prints its first line and attempts the
directory creation, and the filesystem is left as it was. -/
theorem CreateBuildCtx_twice_fails (F : os.Faults) (dockerfile shScript : embed.FS)
    (path : String) (w w1 : FSWorld)
    (hfirst : CreateBuildCtx F dockerfile shScript path w = (none, w1)) :
    CreateBuildCtx F dockerfile shScript path w1 =
      (some ("[ERR:] => MKDIR => " ++ ("mkdir " ++ path ++ ": file exists")),
       { fs := w1.fs,
         trace := w1.trace ++
           [Event.print "cyan"
              "[INFO:] CREATING DOCKERFILE AND SHELL SCRIPT REQUIRED TO BUILD THE AGENT POOL IMAGE",
            Event.mkdir path 511] }) ∧
    (∃ msg, (CreateBuildCtx F dockerfile shScript path w1).1 = some msg ∧
      "[ERR:] => MKDIR => ".data <+: msg.data) ∧
    countWrite (CreateBuildCtx F dockerfile shScript path w1).2.trace = countWrite w1.trace ∧
    (CreateBuildCtx F dockerfile shScript path w1).2.fs = w1.fs := by
  have hex := CreateBuildCtx_creates_path F dockerfile shScript path w w1 hfirst
  have hsecond : CreateBuildCtx F dockerfile shScript path w1 =
      (some ("[ERR:] => MKDIR => " ++ ("mkdir " ++ path ++ ": file exists")),
       { fs := w1.fs,
         trace := w1.trace ++
           [Event.print "cyan"
              "[INFO:] CREATING DOCKERFILE AND SHELL SCRIPT REQUIRED TO BUILD THE AGENT POOL IMAGE",
            Event.mkdir path 511] }) := by
    simp [CreateBuildCtx, os.Mkdir, hex]
  rw [hsecond]
  refine ⟨rfl, ⟨_, rfl, ?_⟩, ?_, rfl⟩
  · exact ⟨("mkdir " ++ path ++ ": file exists").data, by simp [String.data_append]⟩
  · simp [countWrite, List.countP_append, List.countP_cons]

/-- C7, at a concrete input: the build context is created twice in `ctx` on an empty
filesystem. -/
theorem CreateBuildCtx_twice_fails_witness :
    (CreateBuildCtx demoFaults demoEmbed demoEmbed "ctx"
      (CreateBuildCtx demoFaults demoEmbed demoEmbed "ctx" demoFSWorld).2).1 =
      some ("[ERR:] => MKDIR => " ++ ("mkdir " ++ "ctx" ++ ": file exists")) :=
  congrArg Prod.fst (CreateBuildCtx_twice_fails demoFaults demoEmbed demoEmbed "ctx" demoFSWorld
    (CreateBuildCtx demoFaults demoEmbed demoEmbed "ctx" demoFSWorld).2 (by decide)).1

end agentpool
